import Mathlib

/-!
Verification of the drafter/architekt live-migration engine.

This file gives a shallow embedding of the source-side migration control
logic (the per-device dirty loop and its convergence policy, the one-shot
suspend sequence, the authority-transfer counter) and of the
destination-side device admission and schema construction, and proves the
behavioural properties stated about them.

Source correspondence (paths relative to the repository root):
  * `MigrateTo` stage-5 worker and `suspendAndMsyncVM`
    (pkg/roles `StartPeer`, also the `mounter`/`peer` variants),
  * `DirtyManager.PostMigrateDirty` (pkg/peer/dirty_manager.go),
  * `createSiloDevSchema` (pkg/peer/migrate_from.go),
  * device admission inside `MigrateFrom`,
  * `SuspendAndCloseAgentServer` (runner).
-/

namespace Architekt

/-- Per-device migration parameters, from the `MigrateToDevice` struct
(`Name`, `MaxDirtyBlocks`, `MinCycles`, `MaxCycles`, `CycleThrottle`).
Go `int` fields are embedded as `Int`; `CycleThrottle` is a duration in
nanoseconds. -/
structure MigrateToDevice where
  name : String
  maxDirtyBlocks : Int
  minCycles : Int
  maxCycles : Int
  cycleThrottle : Int
deriving DecidableEq

/-- Per-device dirty-loop counters, mirroring the stage-5 worker locals
`totalCycles` and `cyclesBelowDirtyBlockTreshold` together with the
one-shot readiness flag behind `markDeviceAsReadyForAuthorityTransfer`
(`sync.OnceFunc`; in pkg/peer/dirty_manager.go the same three fields are
`TotalCycles`, `CyclesBelowDirtyBlockTreshold`, `Ready`). -/
structure DeviceStatus where
  totalCycles : Int
  cyclesBelowDirtyBlockTreshold : Int
  ready : Bool
deriving DecidableEq

/-- Counters start at zero and the device is initially not ready
(`cyclesBelowDirtyBlockTreshold = 0`, `totalCycles = 0`). -/
def initialDeviceStatus : DeviceStatus :=
  { totalCycles := 0, cyclesBelowDirtyBlockTreshold := 0, ready := false }

/-- Setting the one-shot readiness flag; a second call leaves the state
unchanged (`sync.OnceFunc` / `markDeviceReady`). -/
def markReady (s : DeviceStatus) : DeviceStatus :=
  { s with ready := true }

/-- One convergence-policy update of the dirty loop, translated from the
stage-5 worker (totalCycles++; if len(blocks) < MaxDirtyBlocks then
cyclesBelowDirtyBlockTreshold++ and mark ready once it exceeds MinCycles;
else if totalCycles > MaxCycles mark ready; else reset
cyclesBelowDirtyBlockTreshold). `numDirtyBlocks` is `len(blocks)` with
`len(nil) = 0`. -/
def convergenceStep (cfg : MigrateToDevice) (numDirtyBlocks : Nat)
    (s : DeviceStatus) : DeviceStatus :=
  if (numDirtyBlocks : Int) < cfg.maxDirtyBlocks then
    if s.cyclesBelowDirtyBlockTreshold + 1 > cfg.minCycles then
      markReady { s with totalCycles := s.totalCycles + 1,
                         cyclesBelowDirtyBlockTreshold := s.cyclesBelowDirtyBlockTreshold + 1 }
    else
      { s with totalCycles := s.totalCycles + 1,
               cyclesBelowDirtyBlockTreshold := s.cyclesBelowDirtyBlockTreshold + 1 }
  else if s.totalCycles + 1 > cfg.maxCycles then
    markReady { s with totalCycles := s.totalCycles + 1 }
  else
    { s with totalCycles := s.totalCycles + 1, cyclesBelowDirtyBlockTreshold := 0 }

/-- Transcription of claim C2's wording of the convergence policy: each
iteration increments `total_cycles`; if the dirty count is strictly below
`MaxDirtyBlocks` then `cycles_below` is incremented and the device is
marked ready exactly when `cycles_below` exceeds `MinCycles`; otherwise if
`total_cycles` exceeds `MaxCycles` the device is marked ready (forced
convergence); otherwise `cycles_below` is reset to `0`. Marking is
one-shot, so an already-ready device stays ready. -/
def convergenceStepSpec (cfg : MigrateToDevice) (numDirtyBlocks : Nat)
    (s : DeviceStatus) : DeviceStatus :=
  if (numDirtyBlocks : Int) < cfg.maxDirtyBlocks then
    { totalCycles := s.totalCycles + 1,
      cyclesBelowDirtyBlockTreshold := s.cyclesBelowDirtyBlockTreshold + 1,
      ready := s.ready
        || decide (s.cyclesBelowDirtyBlockTreshold + 1 > cfg.minCycles) }
  else if s.totalCycles + 1 > cfg.maxCycles then
    { totalCycles := s.totalCycles + 1,
      cyclesBelowDirtyBlockTreshold := s.cyclesBelowDirtyBlockTreshold, ready := true }
  else
    { totalCycles := s.totalCycles + 1, cyclesBelowDirtyBlockTreshold := 0,
      ready := s.ready }

/-! The suspend sequence. -/

/-- Observable steps of the one-shot suspend sequence `suspendAndMsyncVM`.
`agentBeforeSuspendRPC` and `agentCloseChannel` are the two effects of
`SuspendAndCloseAgentServer` (the agent `BeforeSuspend` RPC followed by
closing the agent connection). `setSuspendedFlag` is `suspendedVM = true`
under `suspendedVMLock`; `broadcastSuspendedVM` is the wake-up of every
dirty loop (`cancelSuspendedVMCtx()` resp. `close(suspendedVMCh)`). -/
inductive SuspendStep where
  | onBeforeSuspendHook
  | agentBeforeSuspendRPC
  | agentCloseChannel
  | msyncRunner
  | onAfterSuspendHook
  | setSuspendedFlag
  | broadcastSuspendedVM
deriving DecidableEq

/-- Straight-line trace of the body of `suspendAndMsyncVM`: the
`OnBeforeSuspend` hook, `SuspendAndCloseAgentServer` (agent
`BeforeSuspend` RPC, then closing the agent channel), `Msync`, the
`OnAfterSuspend` hook, then `suspendedVM = true` and the broadcast. -/
def suspendAndMsyncVMTrace : List SuspendStep :=
  [SuspendStep.onBeforeSuspendHook,
   SuspendStep.agentBeforeSuspendRPC,
   SuspendStep.agentCloseChannel,
   SuspendStep.msyncRunner,
   SuspendStep.onAfterSuspendHook,
   SuspendStep.setSuspendedFlag,
   SuspendStep.broadcastSuspendedVM]

/-- State of the `sync.OnceValue` latch guarding `suspendAndMsyncVM`:
whether the body has already run, and how many times it ran. One loop
iteration either observes `devicesLeftToTransferAuthorityFor >= N` and
calls the latch (running the body only on the first call), or does not
call it. -/
def onceLatchStep (st : Bool × Nat) (observedAllDevicesReady : Bool) : Bool × Nat :=
  if observedAllDevicesReady then
    if st.1 then st else (true, st.2 + 1)
  else
    st

/-- Number of executions of the suspend-sequence body over a migration,
given for each dirty-loop iteration (across all devices, in program
order) whether it observed the all-devices-ready condition and hence
called `suspendAndMsyncVM`. -/
def suspendSequenceExecutions (observations : List Bool) : Nat :=
  (observations.foldl onceLatchStep (false, 0)).2

/-! The devices-ready counter. -/

/-- Shared readiness state across the `n` devices of a migration: the set
of devices whose `markDeviceAsReadyForAuthorityTransfer` one-shot has
fired, and the `devicesLeftToTransferAuthorityFor` atomic counter. -/
structure AuthorityState (n : Nat) where
  marked : Finset (Fin n)
  devicesLeftToTransferAuthorityFor : Int

/-- One call of a device's `markDeviceAsReadyForAuthorityTransfer`
(`sync.OnceFunc`): the first call by device `d` increments the shared
counter, later calls do nothing. -/
def markDeviceAsReadyForAuthorityTransfer {n : Nat} (s : AuthorityState n)
    (d : Fin n) : AuthorityState n :=
  if d ∈ s.marked then s
  else
    { marked := insert d s.marked,
      devicesLeftToTransferAuthorityFor := s.devicesLeftToTransferAuthorityFor + 1 }

/-- The readiness state after an arbitrary interleaving of mark calls,
starting from no device marked and the counter at `0`. -/
def authorityStateAfter (n : Nat) (calls : List (Fin n)) : AuthorityState n :=
  calls.foldl markDeviceAsReadyForAuthorityTransfer
    { marked := ∅, devicesLeftToTransferAuthorityFor := 0 }

/-! The per-device dirty loop and the frames it sends. -/

/-- Environment of one dirty-loop iteration: the result of
`mig.GetLatestDirty()` (`none` models a nil slice) and the value of the
shared `suspendedVM` flag as read under `suspendedVMLock` in that
iteration. -/
structure LoopIter where
  dirtySample : Option (List Nat)
  suspendedVM : Bool
deriving DecidableEq

/-- Frames sent on a device's virtual channel of the migration protocol,
as far as the claims need them: `DevInfo`, block `WriteAt`s, `DirtyList`,
custom events and the completion event. -/
inductive Frame where
  | devInfo (name : String) (size : Nat) (blockSize : Nat)
  | writeAt (block : Nat)
  | dirtyList (blockSize : Nat) (blocks : List Nat)
  | eventCustom (customType : Nat)
  | eventCompleted
deriving DecidableEq

/-- Wire value of the `TransferAuthority` custom event
(`EventCustomTransferAuthority` / `EventCustomPassAuthority`). -/
def eventCustomTransferAuthority : Nat := 0

/-- Wire value of the `AllDevicesSent` custom event. -/
def eventCustomAllDevicesSent : Nat := 1

/-- Whether a frame is a `WriteAt`. -/
def Frame.isWriteAt : Frame → Bool
  | Frame.writeAt _ => true
  | _ => false

/-- Result of running a device's dirty loop against a finite iteration
environment: the frames it sent, the final convergence counters, the
number of iterations it performed, and whether it exited (took the
`break` whose only successor is the `TransferAuthority` send). -/
structure DirtyLoopResult where
  frames : List Frame
  status : DeviceStatus
  iterations : Nat
  exited : Bool
deriving DecidableEq

/-- Modelled from the spec: the silo migrator's `MigrateDirty` transfers
exactly the listed dirty blocks as `WriteAt` frames, and (with the
`ongoingMigrationsWg` wait at the top of each iteration) those frames are
on the wire before the next dirty sample; `mig.Migrate` plus
`mig.WaitForCompletion` likewise put every precopy block's `WriteAt` on
the wire before the loop starts. The migrator itself lives in the silo
dependency, not in this repository. -/
def migrateBlocksFrames (blocks : List Nat) : List Frame :=
  blocks.map Frame.writeAt

/-- The per-device dirty loop of the stage-5 `MigrateTo` worker. Each
iteration samples `GetLatestDirty`; on a nil sample with `suspendedVM`
observed true the loop breaks (performing no policy update). Otherwise a
non-nil sample is sent as a `DirtyList` followed by its blocks
(`MigrateDirty`), and the convergence policy runs with `len(blocks)`
(zero for nil). -/
def dirtyLoop (cfg : MigrateToDevice) (blockSize : Nat) :
    DeviceStatus → List LoopIter → DirtyLoopResult
  | s, [] => { frames := [], status := s, iterations := 0, exited := false }
  | s, it :: rest =>
    if it.dirtySample = none ∧ it.suspendedVM = true then
      { frames := [], status := s, iterations := 1, exited := true }
    else
      let emitted : List Frame :=
        match it.dirtySample with
        | some blocks => Frame.dirtyList blockSize blocks :: migrateBlocksFrames blocks
        | none => []
      let r := dirtyLoop cfg blockSize
        (convergenceStep cfg (it.dirtySample.getD []).length s) rest
      { frames := emitted ++ r.frames, status := r.status,
        iterations := r.iterations + 1, exited := r.exited }

/-- All frames the stage-5 worker sends for one device: its `DevInfo`,
the precopy `WriteAt`s (`mig.Migrate` + `mig.WaitForCompletion`), the
dirty-loop traffic, and - only if the loop exited - the
`TransferAuthority` custom event followed by `Completed`. -/
def migrateToDeviceFrames (cfg : MigrateToDevice) (name : String)
    (size blockSize : Nat) (precopyBlocks : List Nat)
    (schedule : List LoopIter) : List Frame :=
  Frame.devInfo name size blockSize ::
    (migrateBlocksFrames precopyBlocks ++
      (dirtyLoop cfg blockSize initialDeviceStatus schedule).frames ++
      (if (dirtyLoop cfg blockSize initialDeviceStatus schedule).exited then
        [Frame.eventCustom eventCustomTransferAuthority, Frame.eventCompleted]
      else []))

/-! Block-range computation for priority hints. -/

/-- Block range promoted for a `NeedAt(offset, length)` hint, translated
from the `HandleNeedAt` callback: `endOffset` is clamped to the device
size, `startBlock = offset / blockSize`,
`endBlock = (endOffset - 1) / blockSize + 1`, and every block in
`[startBlock, endBlock)` is prioritised. -/
def needAtPromotedBlocks (size blockSize : Nat) (offset length : Nat) : List Nat :=
  let endOffset := min (offset + length) size
  let startBlock := offset / blockSize
  let endBlock := (endOffset - 1) / blockSize + 1
  List.range' startBlock (endBlock - startBlock)

/-- Block range removed for a `DontNeedAt(offset, length)` hint,
translated from the `HandleDontNeedAt` callback: identical to the
`NeedAt` computation except that both divisions use
`input.prev.storage.Size()` - the device size - instead of the block
size. -/
def dontNeedAtRemovedBlocks (size blockSize : Nat) (offset length : Nat) : List Nat :=
  let endOffset := min (offset + length) size
  let startBlock := offset / size
  let endBlock := (endOffset - 1) / size + 1
  List.range' startBlock (endBlock - startBlock)

/-- The block range claim C6 asserts for both hints:
`{floor(offset / blockSize), ..., ceil(min(offset + length, size) / blockSize) - 1}`. -/
def claimedHintBlocks (size blockSize : Nat) (offset length : Nat) : List Nat :=
  let endOffset := min (offset + length) size
  let startBlock := offset / blockSize
  let endBlock := (endOffset + blockSize - 1) / blockSize
  List.range' startBlock (endBlock - startBlock)

/-! Destination-side device configuration. -/

/-- A record of the destination migration device config
(pkg/peer `MigrateFromDevice`; the variant without `shared` has the same
remaining fields). -/
structure MigrateFromDevice where
  name : String
  base : String
  overlay : String
  state : String
  blockSize : Nat
  shared : Bool
deriving DecidableEq

/-- Whether Go's `strings.TrimSpace(s) == ""` holds: after trimming
leading and trailing white space nothing remains, i.e. every character of
`s` is white space. -/
def trimSpaceEmpty (s : String) : Bool :=
  s.data.all Char.isWhitespace

/-- Shape of the silo device schema built for a non-shared device:
either the base file exposed directly (`System = "file"`,
`Location = base`), or the copy-on-write stack (`System = "sparsefile"`,
`Location = overlay`, with a read-only source whose sidecar name is the
`state` path over the `base` file). -/
inductive DeviceSchemaKind where
  | fileBase (location : String)
  | sparseOverlay (overlay state base : String)
deriving DecidableEq

/-- Schema decision of `createSiloDevSchema` (pkg/peer/migrate_from.go;
the local-device branch of `MigrateFrom` in the roles package is
identical): the base is exposed directly when `TrimSpace(overlay) == ""`
OR `TrimSpace(state) == ""`, and the sparse overlay stack is built
otherwise. -/
def createSiloDevSchemaKind (i : MigrateFromDevice) : DeviceSchemaKind :=
  if trimSpaceEmpty i.overlay || trimSpaceEmpty i.state then
    DeviceSchemaKind.fileBase i.base
  else
    DeviceSchemaKind.sparseOverlay i.overlay i.state i.base

/-- Schema decision as claim C7 words it: the base is exposed directly
exactly when both the overlay path and the state path are empty, and in
every other case the full copy-on-write stack is built. -/
def claimedSchemaKind (i : MigrateFromDevice) : DeviceSchemaKind :=
  if trimSpaceEmpty i.overlay && trimSpaceEmpty i.state then
    DeviceSchemaKind.fileBase i.base
  else
    DeviceSchemaKind.sparseOverlay i.overlay i.state i.base

/-- Outcome of admitting an incoming `DevInfo` on the destination. -/
inductive AdmitResult where
  | admitted (base : String)
  | unknownDeviceName
deriving DecidableEq

/-- Device admission from `MigrateFrom`: scan the configured device list
for the first entry whose name equals the `DevInfo` name and take its
base path (empty if none matches); if the base is blank, abort with
`ErrUnknownDeviceName` (a panic that kills the migration) instead of
building a provider. -/
def admitDeviceBase (devices : List MigrateFromDevice) (diName : String) : AdmitResult :=
  let base :=
    match devices.find? (fun device => device.name = diName) with
    | some device => device.base
    | none => ""
  if trimSpaceEmpty base then AdmitResult.unknownDeviceName
  else AdmitResult.admitted base

/-!  Theorems. -/

/-- Claim C1, counterexample: in `suspendAndMsyncVM` the suspended flag
is NOT set (nor broadcast) before the `OnAfterSuspend` hook runs; the
hook fires first, refuting the claimed order of steps 5 and 6. -/
theorem claim_C1_counterexample :
    ¬ (suspendAndMsyncVMTrace.indexOf SuspendStep.setSuspendedFlag
      < suspendAndMsyncVMTrace.indexOf SuspendStep.onAfterSuspendHook) := by
  decide

/-- Claim C1, amended: the suspend sequence runs the `OnBeforeSuspend`
hook, then the guest-agent `BeforeSuspend` call, then closes the agent
channel, then runs `Msync`, then fires the `OnAfterSuspend` hook, and
only after that sets the global suspended flag and delivers the
suspension broadcast. -/
theorem claim_C1_amended :
    suspendAndMsyncVMTrace.indexOf SuspendStep.onBeforeSuspendHook
      < suspendAndMsyncVMTrace.indexOf SuspendStep.agentBeforeSuspendRPC ∧
    suspendAndMsyncVMTrace.indexOf SuspendStep.agentBeforeSuspendRPC
      < suspendAndMsyncVMTrace.indexOf SuspendStep.agentCloseChannel ∧
    suspendAndMsyncVMTrace.indexOf SuspendStep.agentCloseChannel
      < suspendAndMsyncVMTrace.indexOf SuspendStep.msyncRunner ∧
    suspendAndMsyncVMTrace.indexOf SuspendStep.msyncRunner
      < suspendAndMsyncVMTrace.indexOf SuspendStep.onAfterSuspendHook ∧
    suspendAndMsyncVMTrace.indexOf SuspendStep.onAfterSuspendHook
      < suspendAndMsyncVMTrace.indexOf SuspendStep.setSuspendedFlag ∧
    suspendAndMsyncVMTrace.indexOf SuspendStep.setSuspendedFlag
      < suspendAndMsyncVMTrace.indexOf SuspendStep.broadcastSuspendedVM := by
  decide

/-- Claim C2: starting from zeroed counters, each dirty-loop iteration
increments `total_cycles` and then applies exactly the policy the claim
states: below `MaxDirtyBlocks` the `cycles_below` counter is incremented
and the device is marked ready exactly when it exceeds `MinCycles`;
otherwise the device is marked ready when `total_cycles` exceeds
`MaxCycles` (forced convergence) and `cycles_below` is reset to zero in
the remaining case. -/
theorem claim_C2 (cfg : MigrateToDevice) (numDirtyBlocks : Nat) (s : DeviceStatus) :
    initialDeviceStatus.totalCycles = 0 ∧
    initialDeviceStatus.cyclesBelowDirtyBlockTreshold = 0 ∧
    convergenceStep cfg numDirtyBlocks s = convergenceStepSpec cfg numDirtyBlocks s := by
  refine ⟨rfl, rfl, ?_⟩
  unfold convergenceStep convergenceStepSpec markReady
  split_ifs with h1 h2 h3 <;> simp_all

/-- Characterisation of the once-latch fold: the latch ends fired iff it
started fired or some observation was `true`, and the body ran once more
iff the latch was unfired and some observation was `true`. -/
theorem onceLatch_foldl (observations : List Bool) (fired : Bool) (k : Nat) :
    observations.foldl onceLatchStep (fired, k)
    = (fired || observations.any id,
       k + if fired = false ∧ observations.any id = true then 1 else 0) := by
  induction observations generalizing fired k with
  | nil => simp
  | cons b rest ih =>
    cases b <;> cases fired <;> simp [onceLatchStep, ih]

/-- Claim C3: however many dirty-loop iterations observe the
all-devices-ready condition, the `sync.OnceValue`-guarded suspend
sequence body executes at most once, and it executes exactly once as
soon as at least one iteration observes the condition (each observing
iteration calls `suspendAndMsyncVM`). -/
theorem claim_C3 (observations : List Bool) :
    suspendSequenceExecutions observations ≤ 1 ∧
    (true ∈ observations → suspendSequenceExecutions observations = 1) := by
  unfold suspendSequenceExecutions
  rw [onceLatch_foldl]
  constructor
  · split_ifs <;> simp
  · intro h
    have hany : observations.any id = true := List.any_eq_true.mpr ⟨true, h, rfl⟩
    simp [hany]

/-- Witness for claim C3 at a concrete observation sequence. -/
theorem claim_C3_witness : suspendSequenceExecutions [false, true, true] = 1 :=
  (claim_C3 [false, true, true]).2 (by decide)

/-- Claim C6 (code bug evaluation): with device size 262144 and block
size 65536, a `DontNeedAt(65536, 65536)` hint removes block 0 because
the source divides by `storage.Size()`, while the intended range - the
one `NeedAt(65536, 65536)` computes with the block size - is block 1. -/
theorem claim_C6_code_eval :
    dontNeedAtRemovedBlocks 262144 65536 65536 65536 = [0] ∧
    needAtPromotedBlocks 262144 65536 65536 65536 = [1] ∧
    claimedHintBlocks 262144 65536 65536 65536 = [1] ∧
    dontNeedAtRemovedBlocks 262144 65536 65536 65536
      ≠ claimedHintBlocks 262144 65536 65536 65536 := by
  decide

/-- Claim C7, counterexample: for a device record with a non-empty
overlay path but an empty state path the code exposes the base directly,
whereas the claim demands the full copy-on-write stack whenever not both
paths are empty. -/
theorem claim_C7_counterexample :
    createSiloDevSchemaKind ⟨"disk", "/base", "/overlay", "", 65536, false⟩
      = DeviceSchemaKind.fileBase "/base" ∧
    claimedSchemaKind ⟨"disk", "/base", "/overlay", "", 65536, false⟩
      = DeviceSchemaKind.sparseOverlay "/overlay" "" "/base" ∧
    createSiloDevSchemaKind ⟨"disk", "/base", "/overlay", "", 65536, false⟩
      ≠ claimedSchemaKind ⟨"disk", "/base", "/overlay", "", 65536, false⟩ := by
  decide

/-- Claim C7, amended: the base file is exposed directly exactly when
the overlay path or the state path trims to empty, and the full
copy-on-write stack (sparse overlay at `overlay`, state sidecar at
`state`, read-only base) is built exactly when both are non-empty. -/
theorem claim_C7_amended (i : MigrateFromDevice) :
    (createSiloDevSchemaKind i = DeviceSchemaKind.fileBase i.base
      ↔ (trimSpaceEmpty i.overlay || trimSpaceEmpty i.state) = true) ∧
    ((trimSpaceEmpty i.overlay || trimSpaceEmpty i.state) = false →
      createSiloDevSchemaKind i = DeviceSchemaKind.sparseOverlay i.overlay i.state i.base) := by
  unfold createSiloDevSchemaKind
  constructor
  · split_ifs with hc <;> simp_all
  · intro hc
    simp [hc]

/-- Witness for the amended claim C7 at a record with both paths set. -/
theorem claim_C7_witness :
    createSiloDevSchemaKind ⟨"disk", "/base", "/overlay", "/state", 65536, false⟩
      = DeviceSchemaKind.sparseOverlay "/overlay" "/state" "/base" :=
  (claim_C7_amended ⟨"disk", "/base", "/overlay", "/state", 65536, false⟩).2 (by decide)

/-- Claim C9: a `DevInfo` whose name matches no configured device yields
the unknown-device-name abort instead of admitting the device. -/
theorem claim_C9 (devices : List MigrateFromDevice) (diName : String)
    (h : ∀ device ∈ devices, device.name ≠ diName) :
    admitDeviceBase devices diName = AdmitResult.unknownDeviceName := by
  unfold admitDeviceBase
  have hfind : devices.find? (fun device => device.name = diName) = none := by
    rw [List.find?_eq_none]
    intro d hd
    simp [h d hd]
  rw [hfind]
  rfl

/-- Witness for claim C9: a destination configured only with "disk"
rejects a `DevInfo` named "memory". -/
theorem claim_C9_witness :
    admitDeviceBase [⟨"disk", "/base", "", "", 65536, false⟩] "memory"
      = AdmitResult.unknownDeviceName :=
  claim_C9 [⟨"disk", "/base", "", "", 65536, false⟩] "memory" (by decide)

/-- Custom events never occur among the `WriteAt` frames of a block
transfer. -/
theorem eventCustom_not_mem_migrateBlocksFrames (blocks : List Nat) (c : Nat) :
    Frame.eventCustom c ∉ migrateBlocksFrames blocks := by
  simp [migrateBlocksFrames]

/-- Custom events never occur among the frames the dirty loop itself
emits (it sends only `DirtyList` and `WriteAt` frames). -/
theorem eventCustom_not_mem_dirtyLoop_frames (cfg : MigrateToDevice) (blockSize : Nat)
    (c : Nat) (s : DeviceStatus) (schedule : List LoopIter) :
    Frame.eventCustom c ∉ (dirtyLoop cfg blockSize s schedule).frames := by
  induction schedule generalizing s with
  | nil => simp [dirtyLoop]
  | cons it rest ih =>
    rw [dirtyLoop]
    split_ifs with hc
    · simp
    · cases hsample : it.dirtySample with
      | none => simpa [hsample] using ih _
      | some blocks => simp [hsample, migrateBlocksFrames, ih]

/-- The dirty loop exits only by the `break` taken when a dirty sample
is nil while `suspendedVM` is observed true. -/
theorem dirtyLoop_exited_imp (cfg : MigrateToDevice) (blockSize : Nat) (s : DeviceStatus)
    (schedule : List LoopIter)
    (h : (dirtyLoop cfg blockSize s schedule).exited = true) :
    ∃ it ∈ schedule, it.dirtySample = none ∧ it.suspendedVM = true := by
  induction schedule generalizing s with
  | nil => simp [dirtyLoop] at h
  | cons it rest ih =>
    rw [dirtyLoop] at h
    split_ifs at h with hc
    · exact ⟨it, by simp, hc⟩
    · simp only [] at h
      obtain ⟨it2, hmem, hp⟩ := ih _ h
      exact ⟨it2, by simp [hmem], hp⟩

/-- Claim C4: the `TransferAuthority` custom event for a device is on
the wire only if its dirty loop exited, which happens only when some
iteration sampled nil dirty blocks while observing the suspended flag
set by the suspend sequence. -/
theorem claim_C4 (cfg : MigrateToDevice) (name : String) (size blockSize : Nat)
    (precopyBlocks : List Nat) (schedule : List LoopIter)
    (h : Frame.eventCustom eventCustomTransferAuthority
      ∈ migrateToDeviceFrames cfg name size blockSize precopyBlocks schedule) :
    ∃ it ∈ schedule, it.dirtySample = none ∧ it.suspendedVM = true := by
  apply dirtyLoop_exited_imp cfg blockSize initialDeviceStatus schedule
  by_contra hex
  rw [Bool.not_eq_true] at hex
  unfold migrateToDeviceFrames at h
  rw [hex] at h
  simp [migrateBlocksFrames, eventCustom_not_mem_dirtyLoop_frames] at h

/-- Witness for claim C4 at a one-iteration schedule that suspends
immediately. -/
theorem claim_C4_witness :
    ∃ it ∈ [LoopIter.mk none true], it.dirtySample = none ∧ it.suspendedVM = true :=
  claim_C4 ⟨"memory", 2, 0, 1, 0⟩ "memory" 262144 65536 [0] [⟨none, true⟩] (by decide)

/-- Splitting a list at an element that occurs in neither of the two
surrounding parts is unique. -/
theorem append_cons_eq_of_not_mem {α : Type} {a : α} {xs ys l₁ l₂ : List α}
    (h : xs ++ a :: ys = l₁ ++ a :: l₂) (hxs : a ∉ xs) (hys : a ∉ ys) :
    l₁ = xs ∧ l₂ = ys := by
  induction xs generalizing l₁ with
  | nil =>
    cases l₁ with
    | nil =>
      simp only [List.nil_append, List.cons.injEq] at h
      exact ⟨rfl, h.2.symm⟩
    | cons b t =>
      simp only [List.nil_append, List.cons_append, List.cons.injEq] at h
      obtain ⟨rfl, h2⟩ := h
      exact absurd (by simp [h2]) hys
  | cons x xt ih =>
    cases l₁ with
    | nil =>
      simp only [List.cons_append, List.nil_append, List.cons.injEq] at h
      obtain ⟨rfl, -⟩ := h
      exact absurd (by simp) hxs
    | cons b t =>
      simp only [List.cons_append, List.cons.injEq] at h
      obtain ⟨rfl, h2⟩ := h
      have hxt : a ∉ xt := fun hm => hxs (List.mem_cons_of_mem _ hm)
      obtain ⟨rfl, rfl⟩ := ih h2 hxt
      exact ⟨rfl, rfl⟩

/-- Claim C5: in the frame sequence a device's sender produces, every
frame after the `TransferAuthority` custom event is a non-`WriteAt`
frame; the last `WriteAt` precedes `TransferAuthority`. -/
theorem claim_C5 (cfg : MigrateToDevice) (name : String) (size blockSize : Nat)
    (precopyBlocks : List Nat) (schedule : List LoopIter) (l₁ l₂ : List Frame)
    (h : migrateToDeviceFrames cfg name size blockSize precopyBlocks schedule
      = l₁ ++ Frame.eventCustom eventCustomTransferAuthority :: l₂) :
    l₂.all (fun f => !f.isWriteAt) = true := by
  have hP : Frame.eventCustom eventCustomTransferAuthority
      ∉ Frame.devInfo name size blockSize ::
        (migrateBlocksFrames precopyBlocks ++
          (dirtyLoop cfg blockSize initialDeviceStatus schedule).frames) := by
    simp [migrateBlocksFrames, eventCustom_not_mem_dirtyLoop_frames]
  cases hex : (dirtyLoop cfg blockSize initialDeviceStatus schedule).exited with
  | false =>
    unfold migrateToDeviceFrames at h
    rw [hex] at h
    simp only [Bool.false_eq_true, if_false, List.append_nil] at h
    have hTA : Frame.eventCustom eventCustomTransferAuthority
        ∈ l₁ ++ Frame.eventCustom eventCustomTransferAuthority :: l₂ := by simp
    rw [← h] at hTA
    exact absurd hTA hP
  | true =>
    have hshape : migrateToDeviceFrames cfg name size blockSize precopyBlocks schedule
        = (Frame.devInfo name size blockSize ::
            (migrateBlocksFrames precopyBlocks ++
              (dirtyLoop cfg blockSize initialDeviceStatus schedule).frames)) ++
          Frame.eventCustom eventCustomTransferAuthority :: [Frame.eventCompleted] := by
      unfold migrateToDeviceFrames
      rw [hex]
      simp
    rw [hshape] at h
    obtain ⟨-, rfl⟩ := append_cons_eq_of_not_mem h hP (by simp)
    rfl

/-- Witness for claim C5 at a concrete frame sequence split at the
`TransferAuthority` event. -/
theorem claim_C5_witness : List.all [Frame.eventCompleted] (fun f => !f.isWriteAt) = true :=
  claim_C5 ⟨"memory", 2, 0, 1, 0⟩ "memory" 262144 65536 [0] [⟨none, true⟩]
    [Frame.devInfo "memory" 262144 65536, Frame.writeAt 0] [Frame.eventCompleted] (by decide)

/-- Every convergence-policy update increments `totalCycles` by one. -/
theorem convergenceStep_totalCycles (cfg : MigrateToDevice) (numDirtyBlocks : Nat)
    (s : DeviceStatus) :
    (convergenceStep cfg numDirtyBlocks s).totalCycles = s.totalCycles + 1 := by
  unfold convergenceStep markReady
  dsimp only
  split_ifs <;> rfl

/-- Readiness is one-shot: once marked ready, a device stays ready
through further policy updates. -/
theorem convergenceStep_ready_mono (cfg : MigrateToDevice) (numDirtyBlocks : Nat)
    (s : DeviceStatus) (h : s.ready = true) :
    (convergenceStep cfg numDirtyBlocks s).ready = true := by
  unfold convergenceStep markReady
  dsimp only
  split_ifs <;> simp_all

/-- A policy update that leaves the device not ready preserves the
bounds `0 ≤ cyclesBelow ≤ max MinCycles 0` and
`totalCycles ≤ max MaxCycles 0 + cyclesBelow`. -/
theorem convergenceStep_not_ready (cfg : MigrateToDevice) (numDirtyBlocks : Nat)
    (s : DeviceStatus)
    (h : (convergenceStep cfg numDirtyBlocks s).ready = false)
    (h0 : 0 ≤ s.cyclesBelowDirtyBlockTreshold)
    (h1 : s.cyclesBelowDirtyBlockTreshold ≤ max cfg.minCycles 0)
    (h2 : s.totalCycles ≤ max cfg.maxCycles 0 + s.cyclesBelowDirtyBlockTreshold) :
    0 ≤ (convergenceStep cfg numDirtyBlocks s).cyclesBelowDirtyBlockTreshold ∧
    (convergenceStep cfg numDirtyBlocks s).cyclesBelowDirtyBlockTreshold
      ≤ max cfg.minCycles 0 ∧
    (convergenceStep cfg numDirtyBlocks s).totalCycles
      ≤ max cfg.maxCycles 0 + (convergenceStep cfg numDirtyBlocks s).cyclesBelowDirtyBlockTreshold := by
  have hm1 : cfg.minCycles ≤ max cfg.minCycles 0 := le_max_left _ _
  have hm2 : (0 : Int) ≤ max cfg.minCycles 0 := le_max_right _ _
  have hM1 : cfg.maxCycles ≤ max cfg.maxCycles 0 := le_max_left _ _
  unfold convergenceStep markReady at h ⊢
  split_ifs at h ⊢ with ha hb hc <;> simp_all <;> omega

/-- Once ready, a device stays ready across a whole run of policy
updates. -/
theorem convergence_foldl_ready_mono (cfg : MigrateToDevice) (samples : List Nat)
    (s : DeviceStatus) (h : s.ready = true) :
    (samples.foldl (fun t numDirty => convergenceStep cfg numDirty t) s).ready = true := by
  induction samples generalizing s with
  | nil => exact h
  | cons numDirty rest ih => exact ih _ (convergenceStep_ready_mono cfg numDirty s h)

/-- A run of policy updates that ends not ready has performed exactly
`samples.length` updates and its cycle count is bounded by
`max MaxCycles 0 + max MinCycles 0`. -/
theorem convergence_foldl_not_ready (cfg : MigrateToDevice) (samples : List Nat)
    (s : DeviceStatus)
    (h : (samples.foldl (fun t numDirty => convergenceStep cfg numDirty t) s).ready = false)
    (h0 : 0 ≤ s.cyclesBelowDirtyBlockTreshold)
    (h1 : s.cyclesBelowDirtyBlockTreshold ≤ max cfg.minCycles 0)
    (h2 : s.totalCycles ≤ max cfg.maxCycles 0 + s.cyclesBelowDirtyBlockTreshold) :
    (samples.foldl (fun t numDirty => convergenceStep cfg numDirty t) s).totalCycles
      = s.totalCycles + samples.length ∧
    (samples.foldl (fun t numDirty => convergenceStep cfg numDirty t) s).totalCycles
      ≤ max cfg.maxCycles 0 + max cfg.minCycles 0 := by
  induction samples generalizing s with
  | nil =>
    simp only [List.foldl_nil] at h ⊢
    refine ⟨by simp, ?_⟩
    omega
  | cons numDirty rest ih =>
    simp only [List.foldl_cons] at h ⊢
    have hstep : (convergenceStep cfg numDirty s).ready = false := by
      cases hr : (convergenceStep cfg numDirty s).ready
      · rfl
      · rw [convergence_foldl_ready_mono cfg rest _ hr] at h
        exact absurd h (by simp)
    obtain ⟨g0, g1, g2⟩ := convergenceStep_not_ready cfg numDirty s hstep h0 h1 h2
    obtain ⟨t1, t2⟩ := ih _ h g0 g1 g2
    refine ⟨?_, t2⟩
    rw [t1, convergenceStep_totalCycles]
    simp only [List.length_cons]
    push_cast
    ring

/-- Claim C8, counterexample: with `MaxCycles = 1` a device whose guest
keeps one block dirty while the rest of the group has not converged runs
its dirty loop for 6 iterations - more than `MaxCycles + 1 = 2` - before
the suspension finally lets it exit. -/
theorem claim_C8_counterexample :
    (dirtyLoop ⟨"memory", 2, 0, 1, 0⟩ 65536 initialDeviceStatus
      [⟨some [3], false⟩, ⟨some [3], false⟩, ⟨some [3], false⟩, ⟨some [3], false⟩,
       ⟨some [3], false⟩, ⟨none, true⟩]).exited = true ∧
    (dirtyLoop ⟨"memory", 2, 0, 1, 0⟩ 65536 initialDeviceStatus
      [⟨some [3], false⟩, ⟨some [3], false⟩, ⟨some [3], false⟩, ⟨some [3], false⟩,
       ⟨some [3], false⟩, ⟨none, true⟩]).iterations = 6 ∧
    (MigrateToDevice.mk "memory" 2 0 1 0).maxCycles = 1 ∧
    ¬ ((6 : Nat) ≤ 1 + 1) := by
  decide

/-- Claim C8, amended: what is bounded is readiness, not the loop
length: starting from zeroed counters, after more than
`MaxCycles.toNat + MinCycles.toNat` convergence-policy updates the
device is marked ready, for every pattern of dirty-block counts. -/
theorem claim_C8_amended (cfg : MigrateToDevice) (samples : List Nat)
    (h : cfg.maxCycles.toNat + cfg.minCycles.toNat < samples.length) :
    (samples.foldl (fun s numDirty => convergenceStep cfg numDirty s)
      initialDeviceStatus).ready = true := by
  by_contra hf
  rw [Bool.not_eq_true] at hf
  obtain ⟨ht, hb⟩ := convergence_foldl_not_ready cfg samples initialDeviceStatus hf
    (by simp [initialDeviceStatus])
    (by simpa [initialDeviceStatus] using le_max_right cfg.minCycles 0)
    (by simpa [initialDeviceStatus] using le_max_right cfg.maxCycles 0)
  rw [ht] at hb
  rw [show max cfg.maxCycles 0 = (cfg.maxCycles.toNat : Int) from (Int.toNat_eq_max _).symm,
    show max cfg.minCycles 0 = (cfg.minCycles.toNat : Int) from (Int.toNat_eq_max _).symm] at hb
  simp only [initialDeviceStatus] at hb
  omega

/-- Witness for the amended claim C8: with `MaxCycles = 1` and
`MinCycles = 0`, three updates suffice to mark the device ready. -/
theorem claim_C8_witness :
    ([0, 0, 0].foldl
      (fun s numDirty => convergenceStep ⟨"disk", 2, 0, 1, 0⟩ numDirty s)
      initialDeviceStatus).ready = true :=
  claim_C8_amended ⟨"disk", 2, 0, 1, 0⟩ [0, 0, 0] (by decide)

/-- The `devicesLeftToTransferAuthorityFor` counter always equals the
number of devices whose readiness one-shot has fired. -/
theorem authorityState_counter_eq_card (n : Nat) (calls : List (Fin n))
    (s : AuthorityState n)
    (h : s.devicesLeftToTransferAuthorityFor = (s.marked.card : Int)) :
    (calls.foldl markDeviceAsReadyForAuthorityTransfer s).devicesLeftToTransferAuthorityFor
      = (((calls.foldl markDeviceAsReadyForAuthorityTransfer s).marked.card : Nat) : Int) := by
  induction calls generalizing s with
  | nil => exact h
  | cons d rest ih =>
    simp only [List.foldl_cons]
    apply ih
    unfold markDeviceAsReadyForAuthorityTransfer
    split_ifs with hd
    · exact h
    · simp only [Finset.card_insert_of_not_mem hd, h]
      push_cast
      ring

/-- Claim C10: each device increments the shared counter at most once,
so the counter equals the number of marked devices, stays within
`[0, n]`, and can reach `n` only once every device has been marked
ready at least once. -/
theorem claim_C10 (n : Nat) (calls : List (Fin n)) :
    (authorityStateAfter n calls).devicesLeftToTransferAuthorityFor
      = (((authorityStateAfter n calls).marked.card : Nat) : Int) ∧
    0 ≤ (authorityStateAfter n calls).devicesLeftToTransferAuthorityFor ∧
    (authorityStateAfter n calls).devicesLeftToTransferAuthorityFor ≤ (n : Int) ∧
    ((n : Int) ≤ (authorityStateAfter n calls).devicesLeftToTransferAuthorityFor →
      ∀ d : Fin n, d ∈ (authorityStateAfter n calls).marked) := by
  have hcard : (authorityStateAfter n calls).devicesLeftToTransferAuthorityFor
      = (((authorityStateAfter n calls).marked.card : Nat) : Int) :=
    authorityState_counter_eq_card n calls
      { marked := ∅, devicesLeftToTransferAuthorityFor := 0 } (by simp)
  have hle : (authorityStateAfter n calls).marked.card ≤ n := by
    simpa using Finset.card_le_univ (authorityStateAfter n calls).marked
  refine ⟨hcard, ?_, ?_, ?_⟩
  · rw [hcard]
    exact_mod_cast Nat.zero_le _
  · rw [hcard]
    exact_mod_cast hle
  · intro hn d
    rw [hcard] at hn
    have hcn : (authorityStateAfter n calls).marked.card = n := by
      have : n ≤ (authorityStateAfter n calls).marked.card := by exact_mod_cast hn
      omega
    have huniv : (authorityStateAfter n calls).marked = Finset.univ :=
      Finset.eq_univ_of_card _ (by simpa using hcn)
    rw [huniv]
    exact Finset.mem_univ d

/-- Witness for claim C10: after calls by both devices of a two-device
migration, a counter at 2 implies device 0 is marked. -/
theorem claim_C10_witness : (0 : Fin 2) ∈ (authorityStateAfter 2 [0, 1, 0]).marked :=
  (claim_C10 2 [0, 1, 0]).2.2.2 (by decide) 0

end Architekt
